import Mathlib

set_option autoImplicit false

/-!
Verification of the client-side server-pool and OAuth layer of
`run-model-context-protocol-servers-with-aws-lambda` (python sources).

Part 1: the server pool `Servers`
(src/e2e_tests/python/server_clients/servers.py).
-/

/-- Observable events during `Servers` bring-up and teardown.
`initAttempt` is one call to `server.__aenter__` inside
`_initialize_server_with_retry`; `closeInRetry` is the
`server.__aexit__(None, None, None)` issued after a failed attempt
(its own failures are caught and only logged, so it always "completes");
`sleep` is `asyncio.sleep(delay)`; `close` is the `server.__aexit__`
issued by `Servers.__aexit__` during teardown (the Bool records whether
the session's internal cleanup raised - caught and logged inside the
session's own `__aexit__`, see below). -/
inductive PoolEvent where
  | initAttempt (name : String)
  | closeInRetry (name : String)
  | sleep (delay : ℚ)
  | close (name : String) (cleanupFailed : Bool)
  deriving DecidableEq, Repr

/-- Model of one server client object as observed by `Servers`.
`initOk k` says whether the k-th call (0-based) to `server.__aenter__`
returns normally; `initErr k` is `str(e)` for the exception raised by a
failing k-th call. `cleanupFails` says whether the session's internal
cleanup raises at teardown; both concrete subclasses in the repository
(`LambdaFunctionUrlClient.__aexit__`, `AutomatedOAuthClient.__aexit__`)
wrap that cleanup in `try/except Exception: logging.error(...)`, so the
session's `__aexit__` returns normally either way. -/
structure ServerM where
  name : String
  initOk : Nat → Bool
  initErr : Nat → String
  cleanupFails : Bool

/-- `Servers._initialize_server_with_retry`, recursion on the number of
remaining loop iterations (`remaining = retries - attempt`); `k` is the
number of attempts already made (the Python `attempt` counter before the
current iteration). Returns the trace of events and either the
initialized server, `none` when the `while attempt < retries` guard
fails immediately (Python falls off the loop and returns `None`), or
the raised `Exception` message. -/
def initialize_server_with_retry_aux (server : ServerM) (delay : ℚ) :
    Nat → Nat → List PoolEvent × Except String (Option ServerM)
  | 0, _ => ([], Except.ok none)
  | remaining + 1, k =>
    if server.initOk k then
      ([PoolEvent.initAttempt server.name], Except.ok (some server))
    else
      match remaining with
      | 0 =>
        ([PoolEvent.initAttempt server.name, PoolEvent.closeInRetry server.name],
         Except.error ("Error initializing server " ++ server.name ++ ": " ++ server.initErr k))
      | remaining' + 1 =>
        let rest := initialize_server_with_retry_aux server delay (remaining' + 1) (k + 1)
        (PoolEvent.initAttempt server.name :: PoolEvent.closeInRetry server.name ::
           PoolEvent.sleep delay :: rest.1,
         rest.2)

/-- `Servers._initialize_server_with_retry(server, retries, delay)`
(defaults in the source: `retries = 3`, `delay = 1.0`). -/
def initialize_server_with_retry (server : ServerM) (retries : Nat) (delay : ℚ) :
    List PoolEvent × Except String (Option ServerM) :=
  initialize_server_with_retry_aux server delay retries 0

/-- `Servers.__aenter__`: initializes each server in order via
`_initialize_server_with_retry`, appending results to
`initialized_servers`; a raised exception propagates immediately, with
no teardown of the servers initialized so far. -/
def servers_aenter (servers : List ServerM) (retries : Nat) (delay : ℚ) :
    List PoolEvent × Except String (List (Option ServerM)) :=
  match servers with
  | [] => ([], Except.ok [])
  | s :: rest =>
    match initialize_server_with_retry s retries delay with
    | (tr, Except.error e) => (tr, Except.error e)
    | (tr, Except.ok initialized) =>
      match servers_aenter rest retries delay with
      | (tr2, Except.error e) => (tr ++ tr2, Except.error e)
      | (tr2, Except.ok others) => (tr ++ tr2, Except.ok (initialized :: others))

/-- One session's `__aexit__` at teardown: its internal cleanup failures
are caught and logged inside the session object itself (the subclass
`__aexit__` overrides in src), and the base `Server.__aexit__` is
modelled from the spec: "individual close failures (logged, not
re-raised)", so the call always returns normally, emitting one close
event. -/
def server_aexit (s : ServerM) : List PoolEvent :=
  [PoolEvent.close s.name s.cleanupFails]

/-- `Servers.__aexit__`: `for server in reversed(self.servers): await
server.__aexit__(...)`. -/
def servers_aexit (servers : List ServerM) : List PoolEvent :=
  (servers.reverse).foldl (fun acc s => acc ++ server_aexit s) []

/-- Is the event an `__aenter__` attempt for the named server? -/
def isInitOf (name : String) : PoolEvent → Bool
  | PoolEvent.initAttempt n => n = name
  | _ => false

/-- Is the event a retry-loop cleanup (`server.__aexit__` after a
failed attempt) for the named server? -/
def isCloseInRetryOf (name : String) : PoolEvent → Bool
  | PoolEvent.closeInRetry n => n = name
  | _ => false

/-- Is the event an inter-attempt delay? -/
def isSleep : PoolEvent → Bool
  | PoolEvent.sleep _ => true
  | _ => false

/-- Does the event close (tear down) the named server's session, in any
of the two forms a close can take? -/
def isAnyCloseOf (name : String) : PoolEvent → Bool
  | PoolEvent.closeInRetry n => n = name
  | PoolEvent.close n _ => n = name
  | _ => false

/-- Is the event a teardown-style session close (the kind emitted by
`Servers.__aexit__`)? -/
def isTeardownClose : PoolEvent → Bool
  | PoolEvent.close _ _ => true
  | _ => false

/-- The session name a teardown close event refers to, if any. -/
def teardownCloseName : PoolEvent → Option String
  | PoolEvent.close n _ => some n
  | _ => none

/-- The expected event trace of `_initialize_server_with_retry` for a
server whose every `__aenter__` call fails: attempt, cleanup, delay,
attempt, cleanup, delay, ..., attempt, cleanup — attempts strictly one
after the other. -/
def failTrace (name : String) (delay : ℚ) : Nat → List PoolEvent
  | 0 => []
  | 1 => [PoolEvent.initAttempt name, PoolEvent.closeInRetry name]
  | n + 2 =>
    PoolEvent.initAttempt name :: PoolEvent.closeInRetry name :: PoolEvent.sleep delay ::
      failTrace name delay (n + 1)

/-- A server whose first `__aenter__` call succeeds. -/
def srvGood : ServerM :=
  { name := "A", initOk := fun _ => true, initErr := fun _ => "", cleanupFails := false }

/-- A server whose every `__aenter__` call raises. -/
def srvBad : ServerM :=
  { name := "B", initOk := fun _ => false, initErr := fun _ => "connection refused",
    cleanupFails := false }

/-!
Part 2: the tool router — `Servers.find_server_with_tool` and
`Servers.execute_tool` (src/e2e_tests/python/server_clients/servers.py).
-/

/-- The normalized result a session's `execute_tool` produces (the
`{toolUseId, content, status}` shape of the tool-result envelope). -/
structure ToolResult where
  toolUseId : String
  content : List String
  status : String
  deriving DecidableEq, Repr

/-- A server as seen by the tool router: its advertised tool names
(`list_tools`, the cached catalog) and its `execute_tool`. Modelled
from the spec: the `Server` base class is not under src; per §4.4 its
`list_tools()` returns the cached catalog and its tool execution
converts transport-level exceptions into an error-status result rather
than propagating them, so both are total functions here. -/
structure ToolServerM where
  name : String
  tools : List String
  run : String → String → String → ToolResult

/-- `Servers.find_server_with_tool`: linear scan, first server whose
tool list contains the name; raises `ValueError` when none does. -/
def find_server_with_tool (servers : List ToolServerM) (tool_name : String) :
    Except String ToolServerM :=
  match servers with
  | [] => Except.error ("Tool " ++ tool_name ++ " not found in any server")
  | s :: rest =>
    if s.tools.any (fun t => t = tool_name) then Except.ok s
    else find_server_with_tool rest tool_name

/-- The `{"toolResult": ...}` envelope returned by `Servers.execute_tool`. -/
structure ToolEnvelope where
  toolResult : ToolResult
  deriving DecidableEq, Repr

/-- `Servers.execute_tool`: dispatches to the server found by
`find_server_with_tool`, wrapping its result; the `ValueError` raised
when no server has the tool is caught and converted into the structured
"No server found" error envelope. Total by construction — never raises
to its caller. -/
def execute_tool (servers : List ToolServerM) (tool_name tool_use_id arguments : String) :
    ToolEnvelope :=
  match find_server_with_tool servers tool_name with
  | Except.ok server => { toolResult := server.run tool_name tool_use_id arguments }
  | Except.error _ =>
    { toolResult :=
        { toolUseId := tool_use_id
          content := ["No server found with tool: " ++ tool_name]
          status := "error" } }

/-!
Part 3: the automated (client-credentials) OAuth flow
(src/e2e_tests/python/automated_oauth.py:
`AutomatedOAuthClientProvider.perform_client_credentials_flow`,
`AutomatedOAuthClientProvider.async_auth_flow`,
`AutomatedOAuthClientProvider._discover_oauth_metadata`).
Times are in whole seconds (Int), standing for `time.time()` values.
-/

/-- A network request made by the flow. -/
inductive NetEvent where
  | get (url : String)
  | post (url : String)
  deriving DecidableEq, Repr

/-- The `OAuthToken` object as constructed by the flow
(`token_type` is already defaulted to "Bearer" at the construction
site, so it is a plain string here). -/
structure OAuthTokenM where
  access_token : String
  token_type : String
  expires_in : Option Int
  refresh_token : Option String
  scope : Option String
  deriving DecidableEq, Repr

/-- The slice of the SDK's `OAuthContext` plus the `InMemoryTokenStorage`
that the automated flow reads and writes. -/
structure OAuthContextM where
  storage_token : Option OAuthTokenM
  current_tokens : Option OAuthTokenM
  token_expiry_time : Option Int
  client_info_stored : Bool
  deriving DecidableEq, Repr

/-- Modelled from the spec: `OAuthContext.update_token_expiry` lives in
the external MCP SDK; per the data model, `expires_at` is "derived from
`expires_in` + issue time", computed at the moment of the call:
`token_expiry_time = now + expires_in` when `expires_in` is set, else
no expiry. -/
def update_token_expiry (now : Int) (t : OAuthTokenM) : Option Int :=
  t.expires_in.map (fun e => now + e)

/-- Modelled from the spec: `OAuthContext.is_token_valid` lives in the
external MCP SDK; per §4.3 rule 1 a token is valid when its expiry is
"strictly greater than current time, no grace skew applied" (tokens
without an expiry never expire). -/
def is_token_valid (now : Int) (current : Option OAuthTokenM) (expiry : Option Int) : Bool :=
  match current with
  | none => false
  | some t =>
    t.access_token ≠ "" &&
      (match expiry with
       | none => true
       | some e => now < e)

/-- The discovered `OAuthMetadata` (only the token endpoint is used by
the flow; `none` = the field is absent from the accepted document). -/
structure OAuthMetadataM where
  token_endpoint : Option String
  deriving DecidableEq, Repr

/-- A token-endpoint response: the HTTP status, `response.text` (used
verbatim in the failure message), and the parsed JSON fields (`none` =
key absent from the body). -/
structure TokenResponseM where
  status : Nat
  text : String
  access_token : Option String
  token_type : Option String
  expires_in : Option Int
  refresh_token : Option String
  scope : Option String
  deriving DecidableEq, Repr

/-- The flow's environment: the current time, the ordered discovery URL
candidates built by the SDK helper
`build_oauth_authorization_server_metadata_discovery_urls`, the
outcome of a GET on each candidate (`none` = non-200 status, parse
failure or request exception — all of which make the loop continue),
and the response to a POST on a token endpoint. -/
structure FlowEnvM where
  now : Int
  discovery_urls : List String
  fetch_metadata : String → Option OAuthMetadataM
  token_post : String → TokenResponseM

/-- `AutomatedOAuthClientProvider._discover_oauth_metadata`: GET each
candidate URL in order, accepting the first that yields parseable
metadata; raises when all candidates fail. -/
def discover_oauth_metadata (fetch : String → Option OAuthMetadataM) :
    List String → List NetEvent × Except String OAuthMetadataM
  | [] => ([], Except.error "Failed to discover OAuth metadata from any well-known endpoint")
  | url :: rest =>
    match fetch url with
    | some md => ([NetEvent.get url], Except.ok md)
    | none =>
      let r := discover_oauth_metadata fetch rest
      (NetEvent.get url :: r.1, r.2)

/-- The discovery-and-exchange tail of `perform_client_credentials_flow`
(everything after the cached-token shortcut): discover metadata, check
the token endpoint, store client info, POST the client-credentials
request, fail on a non-200 response (carrying status code and body) or
a missing `access_token` key (a Python `KeyError`), else build the
`OAuthToken` with `token_type` defaulted to "Bearer", store it, and
derive the expiry at the moment of storage. -/
def client_credentials_exchange (env : FlowEnvM) (ctx : OAuthContextM) :
    List NetEvent × Except String OAuthContextM :=
  let d := discover_oauth_metadata env.fetch_metadata env.discovery_urls
  match d.2 with
  | Except.error e => (d.1, Except.error e)
  | Except.ok md =>
    match md.token_endpoint with
    | none => (d.1, Except.error "No token endpoint found in OAuth metadata")
    | some endpoint =>
      let ctx1 := { ctx with client_info_stored := true }
      let resp := env.token_post endpoint
      let tr := d.1 ++ [NetEvent.post endpoint]
      if resp.status ≠ 200 then
        (tr, Except.error
          ("Token request failed: HTTP " ++ toString resp.status ++ " - " ++ resp.text))
      else
        match resp.access_token with
        | none => (tr, Except.error "KeyError: access_token")
        | some tok =>
          let tokens : OAuthTokenM :=
            { access_token := tok
              token_type := resp.token_type.getD "Bearer"
              expires_in := resp.expires_in
              refresh_token := resp.refresh_token
              scope := resp.scope }
          (tr, Except.ok
            { ctx1 with
                storage_token := some tokens
                current_tokens := some tokens
                token_expiry_time := update_token_expiry env.now tokens })

/-- `AutomatedOAuthClientProvider.perform_client_credentials_flow`:
if the storage holds a token with a truthy `access_token`, adopt it,
recompute its expiry, and return immediately when it is still valid
(zero network requests); otherwise run discovery and the token
exchange. -/
def perform_client_credentials_flow (env : FlowEnvM) (ctx : OAuthContextM) :
    List NetEvent × Except String OAuthContextM :=
  match ctx.storage_token with
  | some tok =>
    if tok.access_token ≠ "" then
      let ctx1 :=
        { ctx with
            current_tokens := some tok
            token_expiry_time := update_token_expiry env.now tok }
      if is_token_valid env.now ctx1.current_tokens ctx1.token_expiry_time then
        ([], Except.ok ctx1)
      else
        client_credentials_exchange env ctx1
    else
      client_credentials_exchange env ctx
  | none => client_credentials_exchange env ctx

/-- An outbound HTTP request, reduced to its header dictionary. -/
structure RequestM where
  headers : List (String × String)
  deriving DecidableEq, Repr

/-- Dictionary-style header assignment `request.headers[k] = v`. -/
def set_header (req : RequestM) (k v : String) : RequestM :=
  { headers := (k, v) :: req.headers.filter (fun p => p.1 ≠ k) }

/-- `AutomatedOAuthClientProvider.async_auth_flow`: run the client
credentials flow, then, when current tokens with a truthy access token
exist, attach `Authorization: {token_type or "Bearer"} {access_token}`
to the outgoing request. -/
def async_auth_flow (env : FlowEnvM) (ctx : OAuthContextM) (req : RequestM) :
    List NetEvent × Except String (OAuthContextM × RequestM) :=
  let r := perform_client_credentials_flow env ctx
  match r.2 with
  | Except.error e => (r.1, Except.error e)
  | Except.ok ctx1 =>
    match ctx1.current_tokens with
    | some t =>
      if t.access_token ≠ "" then
        let tt := if t.token_type = "" then "Bearer" else t.token_type
        (r.1, Except.ok (ctx1, set_header req "Authorization" (tt ++ " " ++ t.access_token)))
      else (r.1, Except.ok (ctx1, req))
    | none => (r.1, Except.ok (ctx1, req))

/-!
Part 4: protected-resource discovery
(src/e2e_tests/python/automated_oauth.py:
`AutomatedOAuthClient._discover_scope_and_auth_server`).
-/

/-- The probe response (the initial POST of a ping to the server URL):
its status, and the result of applying the regex
`resource_metadata=(?:"([^"]+)"|([^\s,]+))` to the `WWW-Authenticate`
header — `none` when the header is absent or the pattern does not
match (the regex groups are nonempty by construction, but the falsy
check on the extracted value is still modelled below). -/
structure ProbeResponseM where
  status : Nat
  resource_metadata : Option String
  deriving DecidableEq, Repr

/-- The fetched protected-resource metadata: HTTP status and the parsed
fields (`scopes_supported = none` = field absent). -/
structure ResourceMetadataM where
  status : Nat
  authorization_servers : List String
  scopes_supported : Option (List String)
  deriving DecidableEq, Repr

/-- The fallback metadata URL
`urljoin(f"{parsed.scheme}://{parsed.netloc}", "/.well-known/oauth-protected-resource")`
(the base URL has an empty path, so the join is plain concatenation). -/
def wellknown_fallback (scheme netloc : String) : String :=
  scheme ++ "://" ++ netloc ++ "/.well-known/oauth-protected-resource"

/-- The resource-metadata URL the resolver will fetch: the extracted
`resource_metadata` value when truthy, else the well-known fallback. -/
def resource_metadata_url (probe : ProbeResponseM) (scheme netloc : String) : String :=
  match probe.resource_metadata with
  | some u => if u = "" then wellknown_fallback scheme netloc else u
  | none => wellknown_fallback scheme netloc

/-- `AutomatedOAuthClient._discover_scope_and_auth_server` after the
probe: fail unless the probe returned 401; resolve the metadata URL;
GET it; fail unless 200; fail when no authorization server is listed;
scope is the space-joined `scopes_supported`, or "" (with a warning)
when the field is absent or empty. Returns `(scope, authorization
server)`. `scheme`/`netloc` are the parsed components of the server
URL. -/
def discover_scope_and_auth_server (probe : ProbeResponseM) (scheme netloc : String)
    (fetch : String → ResourceMetadataM) :
    List NetEvent × Except String (String × String) :=
  if probe.status ≠ 401 then
    ([], Except.error
      ("Expected 401 response for OAuth discovery, got " ++ toString probe.status))
  else
    let url := resource_metadata_url probe scheme netloc
    let md := fetch url
    if md.status ≠ 200 then
      ([NetEvent.get url], Except.error
        ("Failed to fetch resource metadata: HTTP " ++ toString md.status))
    else
      match md.authorization_servers with
      | [] =>
        ([NetEvent.get url],
         Except.error "No authorization server found in OAuth protected resource metadata")
      | a :: _ =>
        let scope :=
          match md.scopes_supported with
          | none => ""
          | some [] => ""
          | some ss => String.intercalate " " ss
        ([NetEvent.get url], Except.ok (scope, a))

/-- `InteractiveOAuthClient.discover_scope`
(src/examples/chatbots/python/interactive_oauth.py): probes the server
URL with a GET whose response status is never inspected, hands the
response to the SDK helper `_discover_protected_resource` — abstracted
here as the `metadata_request_url` it produces (as the probe response
is for the automated client) — sends that request, and on a non-200
answer logs a warning and returns the empty scope instead of raising;
on 200 it returns the space-joined `scopes_supported`, or "" (with a
warning) when the field is absent or empty. The authorization-server
list of the fetched metadata is never inspected, and no path of this
function raises. -/
def discover_scope_interactive (probe_status : Nat) (metadata_request_url : String)
    (fetch : String → ResourceMetadataM) : List NetEvent × Except String String :=
  let _ := probe_status
  let md := fetch metadata_request_url
  if md.status ≠ 200 then
    ([NetEvent.get metadata_request_url], Except.ok "")
  else
    match md.scopes_supported with
    | none => ([NetEvent.get metadata_request_url], Except.ok "")
    | some [] => ([NetEvent.get metadata_request_url], Except.ok "")
    | some ss => ([NetEvent.get metadata_request_url], Except.ok (String.intercalate " " ss))

/-!
Part 5: the OAuth callback HTTP handlers — `CallbackHandler.do_GET` in
src/examples/chatbots/python/interactive_oauth.py (the "chatbot"
variant) and in
src/examples/chatbots/python/server_clients/interactive_oauth.py (the
"server_clients" variant) — and the callback wait
(`CallbackServer.wait_for_callback`, `callback_handler`).
-/

/-- The `callback_data` dictionary shared between the HTTP handler and
the waiting flow (`none` = key absent / still `None`). -/
structure CallbackDataM where
  code : Option String
  state : Option String
  error : Option String
  deriving DecidableEq, Repr

/-- A parsed query string as produced by `urllib.parse.parse_qs`: keys
with their first value. `parse_qs` drops empty values by default, so
present keys carry nonempty first values. -/
abbrev QueryParams := List (String × String)

/-- `query_params.get(k, [None])[0]`. -/
def q_first (q : QueryParams) (k : String) : Option String :=
  (q.find? (fun p => p.1 = k)).map (fun p => p.2)

/-- `k in query_params`. -/
def q_has (q : QueryParams) (k : String) : Bool :=
  q.any (fun p => p.1 = k)

/-- Python truthiness of an optional string (`None` and `""` are falsy). -/
def py_truthy : Option String → Bool
  | none => false
  | some s => s ≠ ""

/-- `CallbackHandler.do_GET`, chatbot variant: on the `/callback` path,
an `error` parameter is recorded and answered 400; else a `code`
parameter is recorded (with `state`) and answered 200 with the success
page; else 400; any other path is answered 404. Returns the updated
`callback_data` and the response status. -/
def do_GET_chatbot (path : String) (query : QueryParams) (d : CallbackDataM) :
    CallbackDataM × Nat :=
  if path = "/callback" then
    let auth_code := q_first query "code"
    let state := q_first query "state"
    let error := q_first query "error"
    if py_truthy error then
      ({ d with error := error }, 400)
    else if py_truthy auth_code then
      ({ d with code := auth_code, state := state }, 200)
    else
      (d, 400)
  else
    (d, 404)

/-- `CallbackHandler.do_GET`, server_clients variant: checks `code`
first (responding 200 and recording code and state, even when an
`error` parameter is also present), then `error` (recording it and
responding 400), else responds 404 — and it never inspects the path. -/
def do_GET_server_clients (path : String) (query : QueryParams) (d : CallbackDataM) :
    CallbackDataM × Nat :=
  let _ := path
  if q_has query "code" then
    ({ d with code := q_first query "code", state := q_first query "state" }, 200)
  else if q_has query "error" then
    ({ d with error := q_first query "error" }, 400)
  else
    (d, 404)

/-- What the callback wait raised, if anything: the `TimeoutError` of
the timeout path or the `ValueError` of the provider-error path. -/
inductive CallbackFailure where
  | timeoutError (msg : String)
  | valueError (msg : String)
  deriving DecidableEq, Repr

/-- `CallbackServer.wait_for_callback` (chatbot variant), time
discretized at the granularity of its 0.1 s polling loop: `data k` is
the contents of `callback_data` (as written concurrently by the HTTP
handler thread) observed at the k-th poll, and `fuel` is the number of
polls the timeout admits. Returns the code and the index of the poll
that saw it, raises `ValueError` when an error is seen first, and
`TimeoutError` when the fuel runs out. -/
def wait_for_callback_aux (data : Nat → CallbackDataM) :
    Nat → Nat → Except CallbackFailure (String × Nat)
  | 0, _ => Except.error (CallbackFailure.timeoutError "OAuth callback timeout")
  | fuel + 1, k =>
    match (data k).code with
    | some c => Except.ok (c, k)
    | none =>
      match (data k).error with
      | some e => Except.error (CallbackFailure.valueError ("OAuth error: " ++ e))
      | none => wait_for_callback_aux data fuel (k + 1)

/-- `CallbackServer.wait_for_callback`: just the returned code. -/
def wait_for_callback (data : Nat → CallbackDataM) (fuel : Nat) :
    Except CallbackFailure String :=
  (wait_for_callback_aux data fuel 0).map (fun p => p.1)

/-- The `callback_handler` closure handed to the OAuth provider: wait
for the callback and read the recorded state, with
`callback_server.stop()` in a `finally` block. The Bool records whether
`stop()` ran (socket closed, thread joined) before control returns to
the flow engine. -/
def callback_handler (data : Nat → CallbackDataM) (fuel : Nat) :
    Except CallbackFailure (String × Option String) × Bool :=
  match wait_for_callback_aux data fuel 0 with
  | Except.ok p => (Except.ok (p.1, (data p.2).state), true)
  | Except.error e => (Except.error e, true)

/-!
Part 6: `InteractiveOAuthClient.initialize` in
src/examples/chatbots/python/server_clients/interactive_oauth.py.
-/

/-- Milestone events of `initialize`. -/
inductive InitEvent where
  | cfServerUrlLookup
  | cfClientIdLookup
  | callbackServerStart
  | scopeDiscovery
  | transportCreate
  deriving DecidableEq, Repr

/-- A raised Python exception, by kind. -/
inductive PyErr where
  | valueError (msg : String)
  | unboundLocalError (var : String)
  | other (msg : String)
  deriving DecidableEq, Repr

/-- The environment `initialize` runs against: the static config and
the outcomes of its external calls (CloudFormation lookups, scope
discovery, transport + MCP handshake). -/
structure InitEnvM where
  server_url : Option String
  server_stack_name : Option String
  lookup_client_id_from_cloudformation : Bool
  cf_server_url : Except String String
  cf_client_id : Except String String
  discovered_scope : Except String String
  session_init : Except String Unit

/-- The server-URL determination at the top of `initialize`: take the
configured URL, overridden by the CloudFormation lookup when a stack
name is configured, and raise `ValueError` when the result is falsy. -/
def resolve_server_url (env : InitEnvM) : List InitEvent × Except PyErr String :=
  match env.server_stack_name with
  | some _ =>
    match env.cf_server_url with
    | Except.error e => ([InitEvent.cfServerUrlLookup], Except.error (PyErr.valueError e))
    | Except.ok u =>
      if u = "" then
        ([InitEvent.cfServerUrlLookup],
         Except.error (PyErr.valueError
           "The server_url must be a valid string and cannot be undefined."))
      else ([InitEvent.cfServerUrlLookup], Except.ok u)
  | none =>
    match env.server_url with
    | some u =>
      if u = "" then
        ([], Except.error (PyErr.valueError
          "The server_url must be a valid string and cannot be undefined."))
      else ([], Except.ok u)
    | none =>
      ([], Except.error (PyErr.valueError
        "The server_url must be a valid string and cannot be undefined."))

/-- `InteractiveOAuthClient.initialize` (server_clients variant):
determine the server URL; when `lookup_client_id_from_cloudformation`
is set, look up the client ID; start the callback server; bind the
local `client_info` only under `if client_id:`; discover the scope;
then execute the unconditional `client_info.scope = scope` — a read of
the local `client_info`, which raises `UnboundLocalError` whenever the
binding was skipped — and only then create the transport and run the
MCP handshake. The body's `except Exception` clause logs and re-raises,
so every failure escapes `initialize` unchanged. -/
def interactive_client_init (env : InitEnvM) : List InitEvent × Except PyErr Unit :=
  let r0 := resolve_server_url env
  match r0.2 with
  | Except.error e => (r0.1, Except.error e)
  | Except.ok _ =>
    let idLookup :
        List InitEvent × Except PyErr (Option String) :=
      if env.lookup_client_id_from_cloudformation then
        match env.cf_client_id with
        | Except.error e => ([InitEvent.cfClientIdLookup], Except.error (PyErr.valueError e))
        | Except.ok cid => ([InitEvent.cfClientIdLookup], Except.ok (some cid))
      else ([], Except.ok none)
    match idLookup.2 with
    | Except.error e => (r0.1 ++ idLookup.1, Except.error e)
    | Except.ok client_id =>
      let tr1 := r0.1 ++ idLookup.1 ++ [InitEvent.callbackServerStart]
      let client_info_bound := py_truthy client_id
      let tr2 := tr1 ++ [InitEvent.scopeDiscovery]
      match env.discovered_scope with
      | Except.error e => (tr2, Except.error (PyErr.other e))
      | Except.ok _scope =>
        if client_info_bound then
          let tr3 := tr2 ++ [InitEvent.transportCreate]
          match env.session_init with
          | Except.error e => (tr3, Except.error (PyErr.other e))
          | Except.ok _ => (tr3, Except.ok ())
        else
          (tr2, Except.error (PyErr.unboundLocalError "client_info"))

/-- Concrete router servers used by witnesses. -/
def wsrvA : ToolServerM :=
  { name := "A", tools := ["x", "y"],
    run := fun _ _ _ => { toolUseId := "", content := [], status := "success" } }

/-- Concrete router server owning tool "z", used by witnesses. -/
def wsrvB : ToolServerM :=
  { name := "B", tools := ["z"],
    run := fun n id _ => { toolUseId := id, content := ["ok " ++ n], status := "success" } }

/-- A cached token with 600 s to live, used by witnesses. -/
def wtokLive : OAuthTokenM :=
  { access_token := "cached", token_type := "Bearer", expires_in := some 600,
    refresh_token := none, scope := none }

/-- A cached token that expires exactly now (`expires_in = 0`), used by
witnesses. -/
def wtokEdge : OAuthTokenM :=
  { access_token := "cached", token_type := "Bearer", expires_in := some 0,
    refresh_token := none, scope := none }

/-- The scenario token-endpoint response
`{"access_token": "tok123", "expires_in": 3600}`. -/
def wresp200 : TokenResponseM :=
  { status := 200, text := "", access_token := some "tok123", token_type := none,
    expires_in := some 3600, refresh_token := none, scope := none }

/-- A failing token-endpoint response. -/
def wresp500 : TokenResponseM :=
  { status := 500, text := "boom", access_token := none, token_type := none,
    expires_in := none, refresh_token := none, scope := none }

/-- A concrete flow environment whose token endpoint answers the
scenario response, used by witnesses. -/
def wenvOk : FlowEnvM :=
  { now := 1000
    discovery_urls := ["https://as.example/.well-known/oauth-authorization-server"]
    fetch_metadata := fun _ => some { token_endpoint := some "https://as.example/token" }
    token_post := fun _ => wresp200 }

/-- A concrete flow environment whose token endpoint answers HTTP 500,
used by witnesses. -/
def wenvBad : FlowEnvM :=
  { now := 1000
    discovery_urls := ["https://as.example/.well-known/oauth-authorization-server"]
    fetch_metadata := fun _ => some { token_endpoint := some "https://as.example/token" }
    token_post := fun _ => wresp500 }

/-- An OAuth context whose storage holds the given token, used by
witnesses. -/
def wctx (t : OAuthTokenM) : OAuthContextM :=
  { storage_token := some t, current_tokens := none, token_expiry_time := none,
    client_info_stored := false }

/-- An OAuth context with empty storage, used by witnesses. -/
def wctxEmpty : OAuthContextM :=
  { storage_token := none, current_tokens := none, token_expiry_time := none,
    client_info_stored := false }

/-- The empty `callback_data` dictionary. -/
def emptyCb : CallbackDataM := { code := none, state := none, error := none }

/-- A poll history in which the handler records a code at poll 2, used
by witnesses. -/
def wdataOk : Nat → CallbackDataM := fun k =>
  if k = 2 then { code := some "abc", state := some "xyz", error := none } else emptyCb

/-- A poll history in which the handler records a provider error at
poll 1, used by witnesses. -/
def wdataErr : Nat → CallbackDataM := fun k =>
  if k = 1 then { code := none, state := none, error := some "access_denied" } else emptyCb

/-- An `initialize` environment with a static server URL and
`lookup_client_id_from_cloudformation = False`, used by witnesses. -/
def wInitEnv : InitEnvM :=
  { server_url := some "https://mcp.example"
    server_stack_name := none
    lookup_client_id_from_cloudformation := false
    cf_server_url := Except.error "unused"
    cf_client_id := Except.error "unused"
    discovered_scope := Except.ok "read"
    session_init := Except.ok () }

/-!
## Theorems
-/

lemma failTrace_succ_succ (name : String) (delay : ℚ) (n : Nat) :
    failTrace name delay (n + 2) =
      PoolEvent.initAttempt name :: PoolEvent.closeInRetry name :: PoolEvent.sleep delay ::
        failTrace name delay (n + 1) := rfl

lemma init_retry_aux_fail_eq (s : ServerM) (delay : ℚ) (hfail : ∀ k, s.initOk k = false) :
    ∀ n k, initialize_server_with_retry_aux s delay (n + 1) k =
      (failTrace s.name delay (n + 1),
       Except.error ("Error initializing server " ++ s.name ++ ": " ++ s.initErr (k + n))) := by
  intro n
  induction n with
  | zero =>
    intro k
    simp [initialize_server_with_retry_aux, hfail k, failTrace]
  | succ m ih =>
    intro k
    have hk : k + (m + 1) = (k + 1) + m := by omega
    rw [hk]
    simp only [initialize_server_with_retry_aux, hfail k, Bool.false_eq_true, if_false,
      ih (k + 1), failTrace_succ_succ]

lemma failTrace_counts (name : String) (delay : ℚ) :
    ∀ n, (failTrace name delay (n + 1)).countP (isInitOf name) = n + 1 ∧
      (failTrace name delay (n + 1)).countP isSleep = n ∧
      (failTrace name delay (n + 1)).countP (isCloseInRetryOf name) = n + 1 := by
  intro n
  induction n with
  | zero => simp [failTrace, isInitOf, isSleep, isCloseInRetryOf, List.countP_cons]
  | succ m ih =>
    rw [failTrace_succ_succ]
    simp only [List.countP_cons, isInitOf, isSleep, isCloseInRetryOf]
    simp only [List.countP_cons] at ih ⊢
    refine ⟨?_, ?_, ?_⟩
    · rw [ih.1]; simp
    · rw [ih.2.1]; simp [isSleep]
    · rw [ih.2.2]; simp

/-- C2: a server whose `initialize` always fails makes
`_initialize_server_with_retry` call `__aenter__` exactly `retries`
times, with `retries - 1` fixed inter-attempt delays, closing the
failed attempt's partially-opened resources after every one of the
`retries` failed attempts, and finally raising an error naming the
server; the trace equality exhibits the strictly sequential,
non-overlapping order (attempt, cleanup, delay, attempt, ...). -/
theorem retry_exhaustion (s : ServerM) (retries : Nat) (delay : ℚ)
    (hfail : ∀ k, s.initOk k = false) (hr : 1 ≤ retries) :
    initialize_server_with_retry s retries delay =
      (failTrace s.name delay retries,
       Except.error ("Error initializing server " ++ s.name ++ ": " ++ s.initErr (retries - 1))) ∧
    (failTrace s.name delay retries).countP (isInitOf s.name) = retries ∧
    (failTrace s.name delay retries).countP isSleep = retries - 1 ∧
    (failTrace s.name delay retries).countP (isCloseInRetryOf s.name) = retries := by
  obtain ⟨n, rfl⟩ : ∃ n, retries = n + 1 := ⟨retries - 1, by omega⟩
  have h1 := init_retry_aux_fail_eq s delay hfail n 0
  have h2 := failTrace_counts s.name delay n
  refine ⟨?_, ?_, ?_, ?_⟩
  · simpa [initialize_server_with_retry] using h1
  · simpa using h2.1
  · simpa using h2.2.1
  · simpa using h2.2.2

/-- C2 witness: the default configuration `retries = 3`, `delay = 1`
on the always-failing server. -/
theorem retry_exhaustion_witness :
    initialize_server_with_retry srvBad 3 1 =
      (failTrace srvBad.name 1 3,
       Except.error ("Error initializing server " ++ srvBad.name ++ ": " ++ srvBad.initErr 2)) ∧
    (failTrace srvBad.name 1 3).countP (isInitOf srvBad.name) = 3 ∧
    (failTrace srvBad.name 1 3).countP isSleep = 2 := by
  have h := retry_exhaustion srvBad 3 1 (fun _ => rfl) (by norm_num)
  exact ⟨h.1, h.2.1, h.2.2.1⟩

lemma init_retry_aux_ok (s : ServerM) (delay : ℚ) (m k : Nat) (h : s.initOk k = true) :
    initialize_server_with_retry_aux s delay (m + 1) k =
      ([PoolEvent.initAttempt s.name], Except.ok (some s)) := by
  cases m <;> simp [initialize_server_with_retry_aux, h]

lemma init_retry_aux_fail_one (s : ServerM) (delay : ℚ) (k : Nat) (h : s.initOk k = false) :
    initialize_server_with_retry_aux s delay 1 k =
      ([PoolEvent.initAttempt s.name, PoolEvent.closeInRetry s.name],
       Except.error ("Error initializing server " ++ s.name ++ ": " ++ s.initErr k)) := by
  simp [initialize_server_with_retry_aux, h]

lemma init_retry_aux_fail_step (s : ServerM) (delay : ℚ) (m k : Nat) (h : s.initOk k = false) :
    initialize_server_with_retry_aux s delay (m + 2) k =
      (PoolEvent.initAttempt s.name :: PoolEvent.closeInRetry s.name :: PoolEvent.sleep delay ::
         (initialize_server_with_retry_aux s delay (m + 1) (k + 1)).1,
       (initialize_server_with_retry_aux s delay (m + 1) (k + 1)).2) := by
  simp [initialize_server_with_retry_aux, h]

lemma init_retry_aux_no_teardown (s : ServerM) (delay : ℚ) :
    ∀ n k, ((initialize_server_with_retry_aux s delay n k).1).countP isTeardownClose = 0 := by
  intro n
  induction n with
  | zero => intro k; simp [initialize_server_with_retry_aux]
  | succ m ih =>
    intro k
    by_cases h : s.initOk k
    · rw [init_retry_aux_ok s delay m k h]
      simp [isTeardownClose]
    · have h' : s.initOk k = false := by simpa using h
      cases m with
      | zero =>
        rw [init_retry_aux_fail_one s delay k h']
        simp [isTeardownClose, List.countP_cons]
      | succ m' =>
        rw [init_retry_aux_fail_step s delay m' k h']
        simp [List.countP_cons, isTeardownClose, ih (k + 1)]

lemma init_retry_aux_error_shape (s : ServerM) (delay : ℚ) :
    ∀ n k e, (initialize_server_with_retry_aux s delay n k).2 = Except.error e →
      ∃ j, e = "Error initializing server " ++ s.name ++ ": " ++ s.initErr j := by
  intro n
  induction n with
  | zero => intro k e h; simp [initialize_server_with_retry_aux] at h
  | succ m ih =>
    intro k e h
    by_cases hk : s.initOk k
    · rw [init_retry_aux_ok s delay m k hk] at h
      simp at h
    · have hk' : s.initOk k = false := by simpa using hk
      cases m with
      | zero =>
        rw [init_retry_aux_fail_one s delay k hk'] at h
        simp at h
        exact ⟨k, h.symm⟩
      | succ m' =>
        rw [init_retry_aux_fail_step s delay m' k hk'] at h
        exact ih (k + 1) e h

lemma init_retry_no_teardown (s : ServerM) (delay : ℚ) (retries : Nat) :
    ((initialize_server_with_retry s retries delay).1).countP isTeardownClose = 0 :=
  init_retry_aux_no_teardown s delay retries 0

lemma init_retry_error_shape (s : ServerM) (delay : ℚ) (retries : Nat) (e : String)
    (h : (initialize_server_with_retry s retries delay).2 = Except.error e) :
    ∃ j, e = "Error initializing server " ++ s.name ++ ": " ++ s.initErr j :=
  init_retry_aux_error_shape s delay retries 0 e h

lemma servers_aenter_no_teardown (retries : Nat) (delay : ℚ) :
    ∀ ss : List ServerM, ((servers_aenter ss retries delay).1).countP isTeardownClose = 0 := by
  intro ss
  induction ss with
  | nil => simp [servers_aenter]
  | cons s rest ih =>
    rcases hinit : initialize_server_with_retry s retries delay with ⟨tr, res⟩
    have hs : tr.countP isTeardownClose = 0 := by
      have h0 := init_retry_no_teardown s delay retries
      rw [hinit] at h0
      exact h0
    cases res with
    | error e => simp [servers_aenter, hinit, hs]
    | ok v =>
      rcases hrest : servers_aenter rest retries delay with ⟨tr2, res2⟩
      have h2 : tr2.countP isTeardownClose = 0 := by
        rw [hrest] at ih
        exact ih
      cases res2 with
      | error e => simp [servers_aenter, hinit, hrest, List.countP_append, hs, h2]
      | ok vs => simp [servers_aenter, hinit, hrest, List.countP_append, hs, h2]

lemma servers_aenter_error_shape (retries : Nat) (delay : ℚ) :
    ∀ (ss : List ServerM) e, (servers_aenter ss retries delay).2 = Except.error e →
      ∃ s, s ∈ ss ∧ ∃ j, e = "Error initializing server " ++ s.name ++ ": " ++ s.initErr j := by
  intro ss
  induction ss with
  | nil => intro e h; simp [servers_aenter] at h
  | cons s rest ih =>
    intro e h
    rcases hinit : initialize_server_with_retry s retries delay with ⟨tr, res⟩
    cases res with
    | error e1 =>
      simp only [servers_aenter, hinit] at h
      injection h with h'
      obtain ⟨j, hj⟩ := init_retry_error_shape s delay retries e1 (by rw [hinit])
      refine ⟨s, by simp, j, ?_⟩
      rw [← h']
      exact hj
    | ok v =>
      rcases hrest : servers_aenter rest retries delay with ⟨tr2, res2⟩
      cases res2 with
      | error e2 =>
        simp only [servers_aenter, hinit, hrest] at h
        injection h with h'
        obtain ⟨s', hs', j, hj⟩ := ih e2 (by rw [hrest])
        refine ⟨s', by simp [hs'], j, ?_⟩
        rw [← h']
        exact hj
      | ok vs =>
        simp only [servers_aenter, hinit, hrest] at h
        simp at h

/-- C1 counterexample: in the pool `[srvGood, srvBad]`, server A
initializes successfully, then server B exhausts its retries;
`Servers.__aenter__` raises the aggregate error naming B, but the
already-initialized session A receives zero close events before the
error propagates — not the exactly-one close the claim requires. -/
theorem pool_partial_failure_cex :
    (servers_aenter [srvGood, srvBad] 3 1).2 =
      Except.error ("Error initializing server " ++ "B" ++ ": " ++ "connection refused") ∧
    ((servers_aenter [srvGood, srvBad] 3 1).1).countP (isAnyCloseOf "A") = 0 ∧
    ¬ ((servers_aenter [srvGood, srvBad] 3 1).1).countP (isAnyCloseOf "A") = 1 := by
  refine ⟨rfl, by decide, by decide⟩

/-- C1 amended: if initializing one server exhausts its retries during
pool bring-up, the bring-up fails with an error naming that server, but
`Servers.__aenter__` performs no teardown closes at all — sibling
sessions that had already been initialized are left open when the error
propagates (a first-attempt success contributes only its own
`__aenter__` event to the trace). -/
theorem pool_partial_failure_amended (ss : List ServerM) (retries : Nat) (delay : ℚ) :
    ((servers_aenter ss retries delay).1).countP isTeardownClose = 0 ∧
    (∀ s : ServerM, s.initOk 0 = true → 1 ≤ retries →
      initialize_server_with_retry s retries delay =
        ([PoolEvent.initAttempt s.name], Except.ok (some s))) ∧
    (∀ e, (servers_aenter ss retries delay).2 = Except.error e →
      ∃ s, s ∈ ss ∧ ∃ j, e = "Error initializing server " ++ s.name ++ ": " ++ s.initErr j) := by
  refine ⟨servers_aenter_no_teardown retries delay ss, ?_, servers_aenter_error_shape retries delay ss⟩
  intro s hs hr
  obtain ⟨n, rfl⟩ : ∃ n, retries = n + 1 := ⟨retries - 1, by omega⟩
  exact init_retry_aux_ok s delay n 0 hs

/-- C1 amended, witness at the concrete pool `[srvGood, srvBad]`. -/
theorem pool_partial_failure_amended_witness :
    initialize_server_with_retry srvGood 3 1 =
      ([PoolEvent.initAttempt srvGood.name], Except.ok (some srvGood)) ∧
    ∃ s, s ∈ [srvGood, srvBad] ∧ ∃ j,
      ("Error initializing server " ++ "B" ++ ": " ++ "connection refused") =
        "Error initializing server " ++ s.name ++ ": " ++ s.initErr j := by
  have h := pool_partial_failure_amended [srvGood, srvBad] 3 1
  exact ⟨h.2.1 srvGood rfl (by norm_num), h.2.2 _ rfl⟩

lemma servers_aexit_eq (ss : List ServerM) :
    servers_aexit ss = ss.reverse.map (fun s => PoolEvent.close s.name s.cleanupFails) := by
  have key : ∀ (l : List ServerM) (acc : List PoolEvent),
      l.foldl (fun acc s => acc ++ server_aexit s) acc =
        acc ++ l.map (fun s => PoolEvent.close s.name s.cleanupFails) := by
    intro l
    induction l with
    | nil => intro acc; simp
    | cons a t ih =>
      intro acc
      rw [List.foldl_cons, ih]
      simp [server_aexit]
  simpa [servers_aexit] using key ss.reverse []

/-- C3: `Servers.__aexit__` closes the sessions in exactly the reverse
of their bring-up order, and emits exactly one close per session — also
for sessions whose internal cleanup fails (`cleanupFails` is arbitrary
in `ss`): such failures are caught and logged inside the session's own
`__aexit__`, so they cannot prevent the remaining sessions from being
closed. -/
theorem teardown_reverse_order (ss : List ServerM) :
    (servers_aexit ss).filterMap teardownCloseName = (ss.map (fun s => s.name)).reverse ∧
    (servers_aexit ss).length = ss.length := by
  rw [servers_aexit_eq]
  constructor
  · rw [List.filterMap_map]
    show List.filterMap (some ∘ fun s : ServerM => s.name) ss.reverse =
      (ss.map (fun s => s.name)).reverse
    rw [List.filterMap_eq_map]
    exact List.map_reverse _ ss
  · simp

lemma find_server_with_tool_spec (t : String) :
    ∀ servers : List ToolServerM,
      (∀ s, servers.find? (fun s => s.tools.any (fun x => x = t)) = some s →
        find_server_with_tool servers t = Except.ok s) ∧
      (servers.find? (fun s => s.tools.any (fun x => x = t)) = none →
        find_server_with_tool servers t =
          Except.error ("Tool " ++ t ++ " not found in any server")) := by
  intro servers
  induction servers with
  | nil =>
    exact ⟨fun s h => by simp at h, fun _ => rfl⟩
  | cons a rest ih =>
    by_cases h : a.tools.any (fun x => x = t) = true
    · refine ⟨fun s hs => ?_, fun hn => ?_⟩
      · simp only [List.find?_cons, h] at hs
        cases hs
        simp [find_server_with_tool, h]
      · simp [List.find?_cons, h] at hn
    · have h' : a.tools.any (fun x => x = t) = false := eq_false_of_ne_true h
      refine ⟨fun s hs => ?_, fun hn => ?_⟩
      · simp only [List.find?_cons, h'] at hs
        simpa [find_server_with_tool, h'] using (ih.1 s hs)
      · simp only [List.find?_cons, h'] at hn
        simpa [find_server_with_tool, h'] using (ih.2 hn)

/-- C4: `Servers.execute_tool` dispatches to the first server in pool
order whose tool list contains the tool name, wrapping that server's
result as the `{"toolResult": ...}` envelope; when no server has the
tool, the `ValueError` raised by `find_server_with_tool` is caught and
the structured "No server found" error envelope is returned. The
function is total (return type `ToolEnvelope`), so it never raises to
its caller. -/
theorem execute_tool_routing (servers : List ToolServerM) (t id args : String) :
    (∀ s, servers.find? (fun s => s.tools.any (fun x => x = t)) = some s →
      execute_tool servers t id args = { toolResult := s.run t id args }) ∧
    (servers.find? (fun s => s.tools.any (fun x => x = t)) = none →
      execute_tool servers t id args =
        { toolResult :=
            { toolUseId := id
              content := ["No server found with tool: " ++ t]
              status := "error" } }) := by
  have h := find_server_with_tool_spec t servers
  refine ⟨fun s hs => ?_, fun hn => ?_⟩
  · simp [execute_tool, h.1 s hs]
  · simp [execute_tool, h.2 hn]

/-- C4 witness: with catalogs `{A: [x, y], B: [z]}`, `execute_tool`
for "z" dispatches to B and wraps its result; for a missing tool it
returns the error envelope. -/
theorem execute_tool_routing_witness :
    execute_tool [wsrvA, wsrvB] "z" "t1" "{}" = { toolResult := wsrvB.run "z" "t1" "{}" } ∧
    execute_tool [wsrvA, wsrvB] "nope" "t2" "{}" =
      { toolResult :=
          { toolUseId := "t2"
            content := ["No server found with tool: nope"]
            status := "error" } } := by
  refine ⟨(execute_tool_routing [wsrvA, wsrvB] "z" "t1" "{}").1 wsrvB rfl, ?_⟩
  have h := (execute_tool_routing [wsrvA, wsrvB] "nope" "t2" "{}").2 rfl
  simpa using h

lemma discover_trace_cons (fetch : String → Option OAuthMetadataM) (u : String)
    (rest : List String) :
    ∃ tr, (discover_oauth_metadata fetch (u :: rest)).1 = NetEvent.get u :: tr := by
  cases h : fetch u with
  | some md => exact ⟨[], by simp [discover_oauth_metadata, h]⟩
  | none => exact ⟨(discover_oauth_metadata fetch rest).1, by simp [discover_oauth_metadata, h]⟩

lemma exchange_trace_cons (env : FlowEnvM) (ctx : OAuthContextM) (u : String)
    (rest : List String) (h : env.discovery_urls = u :: rest) :
    ∃ tr, (client_credentials_exchange env ctx).1 = NetEvent.get u :: tr := by
  obtain ⟨tr0, h0⟩ := discover_trace_cons env.fetch_metadata u rest
  rcases hd : discover_oauth_metadata env.fetch_metadata env.discovery_urls with ⟨dtr, dres⟩
  have hdtr : dtr = NetEvent.get u :: tr0 := by
    rw [h] at hd
    rw [hd] at h0
    exact h0
  cases dres with
  | error e => exact ⟨tr0, by simp [client_credentials_exchange, hd, hdtr]⟩
  | ok md =>
    cases hte : md.token_endpoint with
    | none => exact ⟨tr0, by simp [client_credentials_exchange, hd, hdtr, hte]⟩
    | some endpoint =>
      refine ⟨tr0 ++ [NetEvent.post endpoint], ?_⟩
      by_cases hst : (env.token_post endpoint).status = 200
      · cases hat : (env.token_post endpoint).access_token with
        | none => simp [client_credentials_exchange, hd, hdtr, hte, hst, hat]
        | some tok => simp [client_credentials_exchange, hd, hdtr, hte, hst, hat]
      · simp [client_credentials_exchange, hd, hdtr, hte, hst]

/-- C5: when the token storage already holds a token with a truthy
access token whose (recomputed) expiry `ea` is strictly in the future,
`perform_client_credentials_flow` returns immediately, authenticated,
with zero network requests; when the expiry equals the current time the
cached token is treated as expired (the validity boundary is exclusive,
no grace skew) and the flow runs the full discovery-and-exchange tail,
starting with a GET of the first well-known discovery URL. -/
theorem token_cache_reuse_and_boundary (env : FlowEnvM) (ctx : OAuthContextM)
    (tok : OAuthTokenM) (ea : Int)
    (hstored : ctx.storage_token = some tok)
    (haccess : tok.access_token ≠ "")
    (hexp : update_token_expiry env.now tok = some ea) :
    (env.now < ea →
      perform_client_credentials_flow env ctx =
        ([], Except.ok
          { ctx with current_tokens := some tok, token_expiry_time := some ea })) ∧
    (ea = env.now →
      perform_client_credentials_flow env ctx =
        client_credentials_exchange env
          { ctx with current_tokens := some tok, token_expiry_time := some ea }) ∧
    (ea = env.now → ∀ u rest, env.discovery_urls = u :: rest →
      ∃ tr, (perform_client_credentials_flow env ctx).1 = NetEvent.get u :: tr) := by
  refine ⟨?_, ?_, ?_⟩
  · intro hlt
    simp [perform_client_credentials_flow, hstored, haccess, hexp, is_token_valid, hlt]
  · intro hb
    subst hb
    simp [perform_client_credentials_flow, hstored, haccess, hexp, is_token_valid]
  · intro hb u rest hurls
    subst hb
    have heq : perform_client_credentials_flow env ctx =
        client_credentials_exchange env
          { ctx with current_tokens := some tok, token_expiry_time := some env.now } := by
      simp [perform_client_credentials_flow, hstored, haccess, hexp, is_token_valid]
    rw [heq]
    exact exchange_trace_cons env _ u rest hurls

/-- C5 witness: a token with 600 s to live is reused with zero network
events; a token with `expires_in = 0` (expiry exactly now) triggers
re-discovery, the first event being the GET of the well-known URL. -/
theorem token_cache_reuse_witness :
    perform_client_credentials_flow wenvOk (wctx wtokLive) =
      ([], Except.ok
        { wctx wtokLive with current_tokens := some wtokLive, token_expiry_time := some 1600 }) ∧
    ∃ tr, (perform_client_credentials_flow wenvOk (wctx wtokEdge)).1 =
      NetEvent.get "https://as.example/.well-known/oauth-authorization-server" :: tr := by
  have h1 := token_cache_reuse_and_boundary wenvOk (wctx wtokLive) wtokLive 1600
    rfl (by decide) rfl
  have h2 := token_cache_reuse_and_boundary wenvOk (wctx wtokEdge) wtokEdge 1000
    rfl (by decide) rfl
  exact ⟨h1.1 (by norm_num [wenvOk]), h2.2.2 rfl _ _ rfl⟩

/-- C6: with metadata discovery yielding a token endpoint, a non-200
token-endpoint response fails the flow with an error carrying the HTTP
status code and the response body; on the scenario 200 response
`{"access_token": "tok123", "expires_in": 3600}` the stored token has
`token_type` defaulted to "Bearer" and its expiry derived from
`expires_in` at the moment of storage (`now + 3600`), and every
subsequent outbound request through `async_auth_flow` — at any later
time — carries the header `Authorization: Bearer tok123` without
further network requests. -/
theorem token_exchange_contract (env : FlowEnvM) (ctx : OAuthContextM) (endpoint : String)
    (hdisc : (discover_oauth_metadata env.fetch_metadata env.discovery_urls).2 =
      Except.ok { token_endpoint := some endpoint }) :
    ((env.token_post endpoint).status ≠ 200 →
      (client_credentials_exchange env ctx).2 =
        Except.error ("Token request failed: HTTP " ++ toString (env.token_post endpoint).status ++
          " - " ++ (env.token_post endpoint).text)) ∧
    (env.token_post endpoint = wresp200 →
      (client_credentials_exchange env ctx).2 =
        Except.ok
          { ctx with
              client_info_stored := true
              storage_token := some
                { access_token := "tok123", token_type := "Bearer", expires_in := some 3600,
                  refresh_token := none, scope := none }
              current_tokens := some
                { access_token := "tok123", token_type := "Bearer", expires_in := some 3600,
                  refresh_token := none, scope := none }
              token_expiry_time := some (env.now + 3600) } ∧
      ∀ (env2 : FlowEnvM) (req : RequestM),
        async_auth_flow env2
            { ctx with
                client_info_stored := true
                storage_token := some
                  { access_token := "tok123", token_type := "Bearer", expires_in := some 3600,
                    refresh_token := none, scope := none }
                current_tokens := some
                  { access_token := "tok123", token_type := "Bearer", expires_in := some 3600,
                    refresh_token := none, scope := none }
                token_expiry_time := some (env.now + 3600) } req =
          ([], Except.ok
            ({ ctx with
                 client_info_stored := true
                 storage_token := some
                   { access_token := "tok123", token_type := "Bearer", expires_in := some 3600,
                     refresh_token := none, scope := none }
                 current_tokens := some
                   { access_token := "tok123", token_type := "Bearer", expires_in := some 3600,
                     refresh_token := none, scope := none }
                 token_expiry_time := some (env2.now + 3600) },
             set_header req "Authorization" "Bearer tok123"))) := by
  rcases hd : discover_oauth_metadata env.fetch_metadata env.discovery_urls with ⟨dtr, dres⟩
  rw [hd] at hdisc
  simp only at hdisc
  subst hdisc
  constructor
  · intro hst
    simp [client_credentials_exchange, hd, hst]
  · intro hresp
    constructor
    · simp [client_credentials_exchange, hd, hresp, wresp200, update_token_expiry]
    · intro env2 req
      have hvalid : is_token_valid env2.now
          (some { access_token := "tok123", token_type := "Bearer", expires_in := some 3600,
                  refresh_token := none, scope := none : OAuthTokenM })
          (some (env2.now + 3600)) = true := by
        simp [is_token_valid]
      simp only [async_auth_flow, perform_client_credentials_flow, update_token_expiry]
      simp [hvalid, set_header]

/-- C6 witness: the concrete environments `wenvBad` (HTTP 500, body
"boom") and `wenvOk` (the scenario 200 response). -/
theorem token_exchange_contract_witness :
    (client_credentials_exchange wenvBad wctxEmpty).2 =
      Except.error ("Token request failed: HTTP " ++ toString (500 : Nat) ++ " - " ++ "boom") ∧
    ∀ req : RequestM,
      (async_auth_flow wenvOk
          { wctxEmpty with
              client_info_stored := true
              storage_token := some
                { access_token := "tok123", token_type := "Bearer", expires_in := some 3600,
                  refresh_token := none, scope := none }
              current_tokens := some
                { access_token := "tok123", token_type := "Bearer", expires_in := some 3600,
                  refresh_token := none, scope := none }
              token_expiry_time := some (wenvOk.now + 3600) } req).2 =
        Except.ok
          ({ wctxEmpty with
               client_info_stored := true
               storage_token := some
                 { access_token := "tok123", token_type := "Bearer", expires_in := some 3600,
                   refresh_token := none, scope := none }
               current_tokens := some
                 { access_token := "tok123", token_type := "Bearer", expires_in := some 3600,
                   refresh_token := none, scope := none }
               token_expiry_time := some (wenvOk.now + 3600) },
           set_header req "Authorization" "Bearer tok123") := by
  have hbad := token_exchange_contract wenvBad wctxEmpty "https://as.example/token"
    (by simp [wenvBad, discover_oauth_metadata])
  have hok := token_exchange_contract wenvOk wctxEmpty "https://as.example/token"
    (by simp [wenvOk, discover_oauth_metadata])
  refine ⟨hbad.1 (by norm_num [wenvBad, wresp500]), fun req => ?_⟩
  rw [(hok.2 rfl).2 wenvOk req]

/-- Discovery contract of the automated client's
`_discover_scope_and_auth_server`: it fails unless the probe returned
401; when the `WWW-Authenticate` challenge yields no `resource_metadata`
value, the fetched URL is the constructed
`{scheme}://{netloc}/.well-known/oauth-protected-resource` fallback; it
fails when the metadata fetch is not 200, and when no authorization
server is listed; on success it returns the space-joined
`scopes_supported` as the scope (the empty string when the field is
absent) together with the first listed authorization server. -/
theorem protected_resource_discovery (probe : ProbeResponseM) (scheme netloc : String)
    (fetch : String → ResourceMetadataM) :
    (probe.status ≠ 401 →
      (discover_scope_and_auth_server probe scheme netloc fetch).2 =
        Except.error ("Expected 401 response for OAuth discovery, got " ++
          toString probe.status)) ∧
    (probe.status = 401 → probe.resource_metadata = none →
      (discover_scope_and_auth_server probe scheme netloc fetch).1 =
        [NetEvent.get (wellknown_fallback scheme netloc)]) ∧
    (probe.status = 401 →
      (fetch (resource_metadata_url probe scheme netloc)).status ≠ 200 →
      (discover_scope_and_auth_server probe scheme netloc fetch).2 =
        Except.error ("Failed to fetch resource metadata: HTTP " ++
          toString (fetch (resource_metadata_url probe scheme netloc)).status)) ∧
    (probe.status = 401 →
      (fetch (resource_metadata_url probe scheme netloc)).status = 200 →
      (fetch (resource_metadata_url probe scheme netloc)).authorization_servers = [] →
      (discover_scope_and_auth_server probe scheme netloc fetch).2 =
        Except.error "No authorization server found in OAuth protected resource metadata") ∧
    (probe.status = 401 →
      ∀ a rest, (fetch (resource_metadata_url probe scheme netloc)).status = 200 →
      (fetch (resource_metadata_url probe scheme netloc)).authorization_servers = a :: rest →
      ((fetch (resource_metadata_url probe scheme netloc)).scopes_supported = none →
        (discover_scope_and_auth_server probe scheme netloc fetch).2 = Except.ok ("", a)) ∧
      (∀ l, (fetch (resource_metadata_url probe scheme netloc)).scopes_supported = some l →
        (discover_scope_and_auth_server probe scheme netloc fetch).2 =
          Except.ok (String.intercalate " " l, a))) := by
  refine ⟨?_, ?_, ?_, ?_, ?_⟩
  · intro h401
    simp [discover_scope_and_auth_server, h401]
  · intro h401 hnomd
    simp [discover_scope_and_auth_server, h401, resource_metadata_url, hnomd]
    by_cases hst : (fetch (wellknown_fallback scheme netloc)).status = 200
    · cases has : (fetch (wellknown_fallback scheme netloc)).authorization_servers with
      | nil => simp [hst, has]
      | cons a rest => simp [hst, has]
    · simp [hst]
  · intro h401 hst
    simp [discover_scope_and_auth_server, h401, hst]
  · intro h401 hst has
    simp [discover_scope_and_auth_server, h401, hst, has]
  · intro h401 a rest hst has
    constructor
    · intro hsc
      simp [discover_scope_and_auth_server, h401, hst, has, hsc]
    · intro l hsc
      cases l with
      | nil => simp [discover_scope_and_auth_server, h401, hst, has, hsc, String.intercalate]
      | cons s ss => simp [discover_scope_and_auth_server, h401, hst, has, hsc]

/-- Concrete exercise of `protected_resource_discovery`: a 401 probe
without a `resource_metadata` challenge, with metadata served only at
the well-known fallback URL; plus a non-401 probe and a non-200
metadata fetch failing. -/
theorem protected_resource_discovery_witness :
    (discover_scope_and_auth_server { status := 200, resource_metadata := none } "https" "rs.example"
        (fun _ => { status := 200, authorization_servers := [], scopes_supported := none })).2 =
      Except.error ("Expected 401 response for OAuth discovery, got " ++ toString (200 : Nat)) ∧
    (discover_scope_and_auth_server { status := 401, resource_metadata := none } "https" "rs.example"
        (fun u =>
          if u = "https://rs.example/.well-known/oauth-protected-resource" then
            { status := 200, authorization_servers := ["https://as.example"],
              scopes_supported := some ["read", "write"] }
          else { status := 404, authorization_servers := [], scopes_supported := none })).1 =
      [NetEvent.get (wellknown_fallback "https" "rs.example")] ∧
    (discover_scope_and_auth_server { status := 401, resource_metadata := none } "https" "rs.example"
        (fun u =>
          if u = "https://rs.example/.well-known/oauth-protected-resource" then
            { status := 200, authorization_servers := ["https://as.example"],
              scopes_supported := some ["read", "write"] }
          else { status := 404, authorization_servers := [], scopes_supported := none })).2 =
      Except.ok (String.intercalate " " ["read", "write"], "https://as.example") ∧
    (discover_scope_and_auth_server { status := 401, resource_metadata := some "https://rs.example/meta" }
        "https" "rs.example"
        (fun _ => { status := 404, authorization_servers := [], scopes_supported := none })).2 =
      Except.error ("Failed to fetch resource metadata: HTTP " ++ toString (404 : Nat)) := by
  have h1 := protected_resource_discovery { status := 200, resource_metadata := none }
    "https" "rs.example"
    (fun _ => { status := 200, authorization_servers := [], scopes_supported := none })
  have h2 := protected_resource_discovery { status := 401, resource_metadata := none }
    "https" "rs.example"
    (fun u =>
      if u = "https://rs.example/.well-known/oauth-protected-resource" then
        { status := 200, authorization_servers := ["https://as.example"],
          scopes_supported := some ["read", "write"] }
      else { status := 404, authorization_servers := [], scopes_supported := none })
  have h3 := protected_resource_discovery
    { status := 401, resource_metadata := some "https://rs.example/meta" } "https" "rs.example"
    (fun _ => { status := 404, authorization_servers := [], scopes_supported := none })
  refine ⟨h1.1 (by decide), h2.2.1 rfl rfl, ?_, h3.2.2.1 rfl (by decide)⟩
  exact (h2.2.2.2.2 rfl "https://as.example" [] (by decide) (by decide)).2
    ["read", "write"] (by decide)

/-- C7 counterexample: the claim's failure clauses are false of the
cited `InteractiveOAuthClient.discover_scope`: with a probe that did
not return 401 (status 200) and a metadata fetch answering 404, it
succeeds with the empty scope instead of failing (no error outcome
exists); and on a 200 metadata document listing no authorization
server it succeeds with the joined scope instead of failing. -/
theorem protected_resource_discovery_cex :
    (discover_scope_interactive 200 "https://rs.example/.well-known/oauth-protected-resource"
        (fun _ => { status := 404, authorization_servers := [], scopes_supported := none })).2 =
      Except.ok "" ∧
    (¬ ∃ e, (discover_scope_interactive 200 "https://rs.example/.well-known/oauth-protected-resource"
        (fun _ => { status := 404, authorization_servers := [], scopes_supported := none })).2 =
      Except.error e) ∧
    (discover_scope_interactive 200 "https://rs.example/.well-known/oauth-protected-resource"
        (fun _ => { status := 200, authorization_servers := [],
                    scopes_supported := some ["read", "write"] })).2 =
      Except.ok "read write" := by
  refine ⟨rfl, ?_, rfl⟩
  rintro ⟨e, he⟩
  rw [show (discover_scope_interactive 200
      "https://rs.example/.well-known/oauth-protected-resource"
      (fun _ => { status := 404, authorization_servers := [],
                  scopes_supported := none })).2 = Except.ok "" from rfl] at he
  exact Except.noConfusion he

/-- C7 amended: for `AutomatedOAuthClient._discover_scope_and_auth_server`
the claim holds as stated — it fails unless the probe returned 401,
falls back to `{scheme}://{netloc}/.well-known/oauth-protected-resource`
when the challenge yields no `resource_metadata`, fails when the
metadata fetch is not 200 or when no authorization server is listed,
and returns the space-joined `scopes_supported` (or "" when absent)
with the first authorization server. The cited
`InteractiveOAuthClient.discover_scope`, however, never inspects the
probe's status, returns the empty scope with a warning — instead of
failing — when the metadata fetch is not 200, never checks the
authorization-server list, and never fails on these paths; only the
scope clause holds for it. -/
theorem protected_resource_discovery_amended (probe : ProbeResponseM) (scheme netloc : String)
    (fetch : String → ResourceMetadataM)
    (probe_status : Nat) (url : String) (ifetch : String → ResourceMetadataM) :
    ((probe.status ≠ 401 →
      (discover_scope_and_auth_server probe scheme netloc fetch).2 =
        Except.error ("Expected 401 response for OAuth discovery, got " ++
          toString probe.status)) ∧
    (probe.status = 401 → probe.resource_metadata = none →
      (discover_scope_and_auth_server probe scheme netloc fetch).1 =
        [NetEvent.get (wellknown_fallback scheme netloc)]) ∧
    (probe.status = 401 →
      (fetch (resource_metadata_url probe scheme netloc)).status ≠ 200 →
      (discover_scope_and_auth_server probe scheme netloc fetch).2 =
        Except.error ("Failed to fetch resource metadata: HTTP " ++
          toString (fetch (resource_metadata_url probe scheme netloc)).status)) ∧
    (probe.status = 401 →
      (fetch (resource_metadata_url probe scheme netloc)).status = 200 →
      (fetch (resource_metadata_url probe scheme netloc)).authorization_servers = [] →
      (discover_scope_and_auth_server probe scheme netloc fetch).2 =
        Except.error "No authorization server found in OAuth protected resource metadata") ∧
    (probe.status = 401 →
      ∀ a rest, (fetch (resource_metadata_url probe scheme netloc)).status = 200 →
      (fetch (resource_metadata_url probe scheme netloc)).authorization_servers = a :: rest →
      ((fetch (resource_metadata_url probe scheme netloc)).scopes_supported = none →
        (discover_scope_and_auth_server probe scheme netloc fetch).2 = Except.ok ("", a)) ∧
      (∀ l, (fetch (resource_metadata_url probe scheme netloc)).scopes_supported = some l →
        (discover_scope_and_auth_server probe scheme netloc fetch).2 =
          Except.ok (String.intercalate " " l, a)))) ∧
    ((ifetch url).status ≠ 200 →
      discover_scope_interactive probe_status url ifetch =
        ([NetEvent.get url], Except.ok "")) ∧
    ((ifetch url).status = 200 → (ifetch url).scopes_supported = none →
      discover_scope_interactive probe_status url ifetch = ([NetEvent.get url], Except.ok "")) ∧
    ((ifetch url).status = 200 → ∀ l, (ifetch url).scopes_supported = some l →
      discover_scope_interactive probe_status url ifetch =
        ([NetEvent.get url], Except.ok (String.intercalate " " l))) ∧
    (∃ s, (discover_scope_interactive probe_status url ifetch).2 = Except.ok s) := by
  refine ⟨protected_resource_discovery probe scheme netloc fetch, ?_, ?_, ?_, ?_⟩
  · intro hst
    simp [discover_scope_interactive, hst]
  · intro hst hsc
    simp [discover_scope_interactive, hst, hsc]
  · intro hst l hsc
    cases l with
    | nil => simp [discover_scope_interactive, hst, hsc, String.intercalate]
    | cons s ss => simp [discover_scope_interactive, hst, hsc]
  · by_cases hst : (ifetch url).status = 200
    · cases hsc : (ifetch url).scopes_supported with
      | none => exact ⟨"", by simp [discover_scope_interactive, hst, hsc]⟩
      | some l =>
        cases l with
        | nil => exact ⟨"", by simp [discover_scope_interactive, hst, hsc]⟩
        | cons s ss =>
          exact ⟨String.intercalate " " (s :: ss),
            by simp [discover_scope_interactive, hst, hsc]⟩
    · exact ⟨"", by simp [discover_scope_interactive, hst]⟩

/-- C7 amended, witness: the automated client fails on a non-401 probe;
the interactive client returns the empty scope on a 404 metadata fetch
and the joined scope on a 200 document (whatever its
authorization-server list). -/
theorem protected_resource_discovery_amended_witness :
    (discover_scope_and_auth_server { status := 200, resource_metadata := none } "https" "rs.example"
        (fun _ => { status := 200, authorization_servers := [], scopes_supported := none })).2 =
      Except.error ("Expected 401 response for OAuth discovery, got " ++ toString (200 : Nat)) ∧
    discover_scope_interactive 200 "https://rs.example/.well-known/oauth-protected-resource"
        (fun _ => { status := 404, authorization_servers := [], scopes_supported := none }) =
      ([NetEvent.get "https://rs.example/.well-known/oauth-protected-resource"], Except.ok "") ∧
    discover_scope_interactive 401 "https://rs.example/.well-known/oauth-protected-resource"
        (fun _ => { status := 200, authorization_servers := ["https://as.example"],
                    scopes_supported := some ["read", "write"] }) =
      ([NetEvent.get "https://rs.example/.well-known/oauth-protected-resource"],
       Except.ok (String.intercalate " " ["read", "write"])) := by
  have h1 := protected_resource_discovery_amended
    { status := 200, resource_metadata := none } "https" "rs.example"
    (fun _ => { status := 200, authorization_servers := [], scopes_supported := none })
    200 "https://rs.example/.well-known/oauth-protected-resource"
    (fun _ => { status := 404, authorization_servers := [], scopes_supported := none })
  have h2 := protected_resource_discovery_amended
    { status := 200, resource_metadata := none } "https" "rs.example"
    (fun _ => { status := 200, authorization_servers := [], scopes_supported := none })
    401 "https://rs.example/.well-known/oauth-protected-resource"
    (fun _ => { status := 200, authorization_servers := ["https://as.example"],
                scopes_supported := some ["read", "write"] })
  exact ⟨h1.1.1 (by decide), h1.2.1 (by decide), h2.2.2.2.1 rfl ["read", "write"] rfl⟩

/-- C8 counterexample: the server_clients `do_GET` answers a callback
GET carrying neither `code` nor `error` with 404 — not the 400 the
claim requires — and answers a GET carrying both `code` and `error`
with 200, although the claim requires 400 whenever `error` is
present. -/
theorem callback_get_cex :
    (do_GET_server_clients "/callback" [] emptyCb).2 = 404 ∧
    ¬ (do_GET_server_clients "/callback" [] emptyCb).2 = 400 ∧
    (do_GET_server_clients "/callback" [("code", "abc"), ("error", "denied")] emptyCb).2 = 200 ∧
    ¬ (do_GET_server_clients "/callback" [("code", "abc"), ("error", "denied")] emptyCb).2 = 400 := by
  refine ⟨rfl, by decide, rfl, by decide⟩

/-- C8 amended: the chatbot `do_GET` behaves exactly as the claim
states on the `/callback` path (error → record + 400, else code →
record + 200, else 400; other paths → 404); the server_clients variant
instead checks `code` first (answering 200 and recording code and state
even when `error` is also present), then `error` (record + 400), and
answers 404 — not 400 — when neither parameter is present, on any
path. -/
theorem callback_get_behavior (path : String) (query : QueryParams) (d : CallbackDataM) :
    (path = "/callback" →
      (py_truthy (q_first query "error") = true →
        do_GET_chatbot path query d = ({ d with error := q_first query "error" }, 400)) ∧
      (py_truthy (q_first query "error") = false →
        py_truthy (q_first query "code") = true →
        do_GET_chatbot path query d =
          ({ d with code := q_first query "code", state := q_first query "state" }, 200)) ∧
      (py_truthy (q_first query "error") = false →
        py_truthy (q_first query "code") = false →
        do_GET_chatbot path query d = (d, 400))) ∧
    (path ≠ "/callback" → do_GET_chatbot path query d = (d, 404)) ∧
    (q_has query "code" = true →
      do_GET_server_clients path query d =
        ({ d with code := q_first query "code", state := q_first query "state" }, 200)) ∧
    (q_has query "code" = false → q_has query "error" = true →
      do_GET_server_clients path query d = ({ d with error := q_first query "error" }, 400)) ∧
    (q_has query "code" = false → q_has query "error" = false →
      do_GET_server_clients path query d = (d, 404)) := by
  refine ⟨?_, ?_, ?_, ?_, ?_⟩
  · intro hp
    refine ⟨?_, ?_, ?_⟩
    · intro he
      simp [do_GET_chatbot, hp, he]
    · intro he hc
      simp [do_GET_chatbot, hp, he, hc]
    · intro he hc
      simp [do_GET_chatbot, hp, he, hc]
  · intro hp
    simp [do_GET_chatbot, hp]
  · intro hc
    simp [do_GET_server_clients, hc]
  · intro hc he
    simp [do_GET_server_clients, hc, he]
  · intro hc he
    simp [do_GET_server_clients, hc, he]

/-- C8 amended, witness: the three chatbot outcomes and the three
server_clients outcomes at concrete requests. -/
theorem callback_get_behavior_witness :
    do_GET_chatbot "/callback" [("error", "denied")] emptyCb =
      ({ emptyCb with error := some "denied" }, 400) ∧
    do_GET_chatbot "/callback" [("code", "abc"), ("state", "xyz")] emptyCb =
      ({ emptyCb with code := some "abc", state := some "xyz" }, 200) ∧
    do_GET_chatbot "/callback" [] emptyCb = (emptyCb, 400) ∧
    do_GET_chatbot "/other" [] emptyCb = (emptyCb, 404) ∧
    do_GET_server_clients "/callback" [("code", "abc"), ("state", "xyz")] emptyCb =
      ({ emptyCb with code := some "abc", state := some "xyz" }, 200) ∧
    do_GET_server_clients "/callback" [("error", "denied")] emptyCb =
      ({ emptyCb with error := some "denied" }, 400) := by
  have h1 := callback_get_behavior "/callback" [("error", "denied")] emptyCb
  have h2 := callback_get_behavior "/callback" [("code", "abc"), ("state", "xyz")] emptyCb
  have h3 := callback_get_behavior "/callback" [] emptyCb
  have h4 := callback_get_behavior "/other" [] emptyCb
  exact ⟨(h1.1 rfl).1 (by decide), (h2.1 rfl).2.1 (by decide) (by decide),
    (h3.1 rfl).2.2 (by decide) (by decide), h4.2.1 (by decide),
    h2.2.2.1 (by decide), h1.2.2.2.1 (by decide) (by decide)⟩

lemma wait_aux_finds (data : Nat → CallbackDataM) :
    ∀ fuel k0 m c, m < fuel →
      (∀ j, j < m → (data (k0 + j)).code = none ∧ (data (k0 + j)).error = none) →
      (data (k0 + m)).code = some c →
      wait_for_callback_aux data fuel k0 = Except.ok (c, k0 + m) := by
  intro fuel
  induction fuel with
  | zero => intro k0 m c hm; omega
  | succ f ih =>
    intro k0 m c hm hempty hc
    cases m with
    | zero =>
      simp only [Nat.add_zero] at hc
      simp [wait_for_callback_aux, hc]
    | succ m' =>
      obtain ⟨h0c, h0e⟩ := hempty 0 (Nat.succ_pos m')
      simp only [Nat.add_zero] at h0c h0e
      have hshift : ∀ j, j < m' →
          (data (k0 + 1 + j)).code = none ∧ (data (k0 + 1 + j)).error = none := by
        intro j hj
        have := hempty (j + 1) (by omega)
        have harith : k0 + (j + 1) = k0 + 1 + j := by omega
        rw [harith] at this
        exact this
      have hc' : (data (k0 + 1 + m')).code = some c := by
        have harith : k0 + (m' + 1) = k0 + 1 + m' := by omega
        rw [harith] at hc
        exact hc
      have hrec := ih (k0 + 1) m' c (by omega) hshift hc'
      have harith : k0 + 1 + m' = k0 + (m' + 1) := by omega
      rw [harith] at hrec
      simp [wait_for_callback_aux, h0c, h0e, hrec]

lemma wait_aux_timeout (data : Nat → CallbackDataM) :
    ∀ fuel k0,
      (∀ j, j < fuel → (data (k0 + j)).code = none ∧ (data (k0 + j)).error = none) →
      wait_for_callback_aux data fuel k0 =
        Except.error (CallbackFailure.timeoutError "OAuth callback timeout") := by
  intro fuel
  induction fuel with
  | zero => intro k0 hempty; rfl
  | succ f ih =>
    intro k0 hempty
    obtain ⟨h0c, h0e⟩ := hempty 0 (Nat.succ_pos f)
    simp only [Nat.add_zero] at h0c h0e
    have hshift : ∀ j, j < f →
        (data (k0 + 1 + j)).code = none ∧ (data (k0 + 1 + j)).error = none := by
      intro j hj
      have := hempty (j + 1) (by omega)
      have harith : k0 + (j + 1) = k0 + 1 + j := by omega
      rw [harith] at this
      exact this
    simp [wait_for_callback_aux, h0c, h0e, ih (k0 + 1) hshift]

lemma wait_aux_error (data : Nat → CallbackDataM) :
    ∀ fuel k0 m e, m < fuel →
      (∀ j, j < m → (data (k0 + j)).code = none ∧ (data (k0 + j)).error = none) →
      (data (k0 + m)).code = none → (data (k0 + m)).error = some e →
      wait_for_callback_aux data fuel k0 =
        Except.error (CallbackFailure.valueError ("OAuth error: " ++ e)) := by
  intro fuel
  induction fuel with
  | zero => intro k0 m e hm; omega
  | succ f ih =>
    intro k0 m e hm hempty hc he
    cases m with
    | zero =>
      simp only [Nat.add_zero] at hc he
      simp [wait_for_callback_aux, hc, he]
    | succ m' =>
      obtain ⟨h0c, h0e⟩ := hempty 0 (Nat.succ_pos m')
      simp only [Nat.add_zero] at h0c h0e
      have hshift : ∀ j, j < m' →
          (data (k0 + 1 + j)).code = none ∧ (data (k0 + 1 + j)).error = none := by
        intro j hj
        have := hempty (j + 1) (by omega)
        have harith : k0 + (j + 1) = k0 + 1 + j := by omega
        rw [harith] at this
        exact this
      have harith : k0 + (m' + 1) = k0 + 1 + m' := by omega
      rw [harith] at hc he
      simp [wait_for_callback_aux, h0c, h0e, ih (k0 + 1) m' e (by omega) hshift hc he]

/-- C9: the callback wait returns the recorded authorization code at
the first poll that sees one; with no recording within the timeout's
poll budget it fails with the `TimeoutError` ("OAuth callback
timeout"); when an error was recorded first it fails with the
`ValueError` carrying the provider-reported error string; and on every
exit path — success, error, or timeout — `callback_server.stop()` has
run (the `finally` block) before control returns to the flow engine. -/
theorem callback_wait_contract (data : Nat → CallbackDataM) (fuel : Nat) :
    (∀ k c, k < fuel →
      (∀ j, j < k → (data j).code = none ∧ (data j).error = none) →
      (data k).code = some c →
      callback_handler data fuel = (Except.ok (c, (data k).state), true)) ∧
    ((∀ j, j < fuel → (data j).code = none ∧ (data j).error = none) →
      callback_handler data fuel =
        (Except.error (CallbackFailure.timeoutError "OAuth callback timeout"), true)) ∧
    (∀ k e, k < fuel →
      (∀ j, j < k → (data j).code = none ∧ (data j).error = none) →
      (data k).code = none → (data k).error = some e →
      callback_handler data fuel =
        (Except.error (CallbackFailure.valueError ("OAuth error: " ++ e)), true)) ∧
    (callback_handler data fuel).2 = true := by
  refine ⟨?_, ?_, ?_, ?_⟩
  · intro k c hk hempty hc
    have h := wait_aux_finds data fuel 0 k c hk (by simpa using hempty) (by simpa using hc)
    simp only [Nat.zero_add] at h
    simp [callback_handler, h]
  · intro hempty
    have h := wait_aux_timeout data fuel 0 (by simpa using hempty)
    simp [callback_handler, h]
  · intro k e hk hempty hc he
    have h := wait_aux_error data fuel 0 k e hk (by simpa using hempty)
      (by simpa using hc) (by simpa using he)
    simp [callback_handler, h]
  · cases h : wait_for_callback_aux data fuel 0 with
    | ok p => simp [callback_handler, h]
    | error e => simp [callback_handler, h]

/-- C9 witness: with the timeout budget of 300 s (3000 polls), a code
recorded at poll 2 is returned with the recorded state; an error
recorded at poll 1 raises the ValueError; an empty history raises the
TimeoutError after a 5-poll budget; the listener is stopped in each
case. -/
theorem callback_wait_contract_witness :
    callback_handler wdataOk 3000 = (Except.ok ("abc", some "xyz"), true) ∧
    callback_handler wdataErr 3000 =
      (Except.error (CallbackFailure.valueError ("OAuth error: " ++ "access_denied")), true) ∧
    callback_handler (fun _ => emptyCb) 5 =
      (Except.error (CallbackFailure.timeoutError "OAuth callback timeout"), true) := by
  have h1 := (callback_wait_contract wdataOk 3000).1 2 "abc" (by norm_num)
    (by decide) (by decide)
  have h2 := (callback_wait_contract wdataErr 3000).2.2.1 1 "access_denied" (by norm_num)
    (by decide) (by decide) (by decide)
  have h3 := (callback_wait_contract (fun _ => emptyCb) 5).2.1 (by decide)
  exact ⟨by simpa [wdataOk] using h1, h2, h3⟩

lemma resolve_server_url_no_transport (env : InitEnvM) :
    InitEvent.transportCreate ∉ (resolve_server_url env).1 := by
  cases hs : env.server_stack_name with
  | some n =>
    cases hc : env.cf_server_url with
    | error e => simp [resolve_server_url, hs, hc]
    | ok u =>
      by_cases hu : u = "" <;> simp [resolve_server_url, hs, hc, hu]
  | none =>
    cases hc : env.server_url with
    | some u =>
      by_cases hu : u = "" <;> simp [resolve_server_url, hs, hc, hu]
    | none => simp [resolve_server_url, hs, hc]

/-- C10: in the server_clients `InteractiveOAuthClient.initialize`,
whenever `lookup_client_id_from_cloudformation` is false, no client ID
is obtained and the local `client_info` is never bound, so `initialize`
never reaches transport creation and always fails; in particular, when
the URL resolution and the scope discovery succeed, the failure is
exactly the `UnboundLocalError` on `client_info` raised by the
unconditional `client_info.scope = scope` assignment. -/
theorem server_clients_init_unbound (env : InitEnvM)
    (hflag : env.lookup_client_id_from_cloudformation = false) :
    ((interactive_client_init env).2.isOk = false ∧
      InitEvent.transportCreate ∉ (interactive_client_init env).1) ∧
    (∀ u s, (resolve_server_url env).2 = Except.ok u →
      env.discovered_scope = Except.ok s →
      (interactive_client_init env).2 = Except.error (PyErr.unboundLocalError "client_info")) := by
  have hnt := resolve_server_url_no_transport env
  rcases hr0 : resolve_server_url env with ⟨tr0, res0⟩
  rw [hr0] at hnt
  simp only at hnt
  cases res0 with
  | error e =>
    refine ⟨⟨?_, ?_⟩, ?_⟩
    · simp [interactive_client_init, hr0, Except.isOk, Except.toBool]
    · simp [interactive_client_init, hr0]
      exact hnt
    · intro u s hu hs
      simp at hu
  | ok u0 =>
    cases hsc : env.discovered_scope with
    | error e =>
      refine ⟨⟨?_, ?_⟩, ?_⟩
      · simp [interactive_client_init, hr0, hflag, hsc, Except.isOk, Except.toBool]
      · simp [interactive_client_init, hr0, hflag, hsc, py_truthy]
        exact hnt
      · intro u s hu hs
        simp at hs
    | ok scope =>
      refine ⟨⟨?_, ?_⟩, ?_⟩
      · simp [interactive_client_init, hr0, hflag, hsc, py_truthy, Except.isOk, Except.toBool]
      · simp [interactive_client_init, hr0, hflag, hsc, py_truthy]
        exact hnt
      · intro u s hu hs
        simp [interactive_client_init, hr0, hflag, hsc, py_truthy]

/-- C10 witness: the concrete configuration with a static server URL,
lookup disabled, and successful scope discovery fails with the
`UnboundLocalError` on `client_info` and never creates the transport. -/
theorem server_clients_init_unbound_witness :
    (interactive_client_init wInitEnv).2 = Except.error (PyErr.unboundLocalError "client_info") ∧
    InitEvent.transportCreate ∉ (interactive_client_init wInitEnv).1 := by
  have h := server_clients_init_unbound wInitEnv rfl
  exact ⟨h.2 "https://mcp.example" "read" rfl rfl, h.1.2⟩
